import Mathlib

/-
Verification development for the bitbank connector (crypto-botters).

Shallow embedding of:
- the order-book reconciliation state machine of
  examples/bitbank/bitbank_websocket_orderbook.rs (DepthDiff, DepthWhole, DepthData and its
  methods insert_diff, update_whole, process_diff_buffer);
- the WebSocket frame handler of src/exchanges/bitbank.rs
  (BitbankWebSocketHandler::handle_start / handle_message / handle_close);
- the HTTP request/response handler of src/exchanges/bitbank.rs
  (BitbankRequestHandler::build_request / handle_response, BitbankHandleError).

Conventions: Rust panics (unwrap, assert!) are modelled as `none` / `Except.error`; the
`BTreeMap<String, _>` containers are modelled as association lists sorted by the same
byte-lexicographic key order Rust's `Ord for String` uses; `rust_decimal::Decimal` is modelled
by its actual representation, an integer mantissa with a base-10 scale.
-/

namespace CryptoBotters

/-- Byte-lexicographic order on character lists; for the ASCII strings handled here this is
exactly the `Ord` instance of Rust's `String` that `BTreeMap<String, _>` sorts by. -/
def listLtB : List Char → List Char → Bool
  | [], [] => false
  | [], _ :: _ => true
  | _ :: _, [] => false
  | a :: as, b :: bs =>
    if a.toNat < b.toNat then true
    else if b.toNat < a.toNat then false
    else listLtB as bs

/-- The key order of `BTreeMap<String, _>` (Rust `String` comparison, `key < seq` etc.). -/
def strLt (a b : String) : Bool := listLtB a.data b.data

/-- Model of `BTreeMap<String, α>`: an association list kept sorted by `strLt`, so that list
order coincides with the map's ascending iteration order. -/
abbrev Smap (α : Type) : Type := List (String × α)

/-- Embeds `BTreeMap::insert` (last write per key wins), keeping the list sorted by `strLt`. -/
def Smap.insert {α : Type} : Smap α → String → α → Smap α
  | [], k, v => [(k, v)]
  | (k0, v0) :: rest, k, v =>
    if strLt k k0 then (k, v) :: (k0, v0) :: rest
    else if k = k0 then (k, v) :: rest
    else (k0, v0) :: Smap.insert rest k v

/-- Embeds `BTreeMap::remove` (the removed value is discarded by all call sites). -/
def Smap.remove {α : Type} (m : Smap α) (k : String) : Smap α :=
  List.filter (fun p => p.1 != k) m

/-- Embeds `BTreeMap::contains_key`. -/
def Smap.contains_key {α : Type} (m : Smap α) (k : String) : Bool :=
  List.any m (fun p => p.1 == k)

/-- Model of `rust_decimal::Decimal`: an integer mantissa scaled by a power of ten, which is
the crate's own representation. The numeric value is `mantissa / 10 ^ scale`. -/
structure Decimal where
  mantissa : Int
  scale : Nat
deriving DecidableEq

/-- Embeds `rust_decimal` equality with zero (`amount == Decimal::zero()`): the value is zero exactly
when the mantissa is zero, at any scale. -/
def Decimal.isZero (d : Decimal) : Bool := d.mantissa == 0

/-- Value of one decimal digit character. -/
def digitVal (c : Char) : Option Nat :=
  if c.isDigit then some (c.toNat - 48) else none

/-- Accumulate a decimal digit run; fails on a non-digit. -/
def parseDigits : List Char → Nat → Option Nat
  | [], acc => some acc
  | c :: cs, acc =>
    match digitVal c with
    | some d => parseDigits cs (acc * 10 + d)
    | none => none

/-- Model of `str::parse::<Decimal>()` (`rust_decimal::Decimal::from_str`) on plain decimal
strings: optional sign, a digit run, and an optional fractional digit run. `none` models the
`Err` that the call sites turn into a panic via `unwrap()`. -/
def parseDecimal (s : String) : Option Decimal :=
  let cs := s.data
  let signAndDigits : Int × List Char :=
    match cs with
    | '-' :: rest => (-1, rest)
    | '+' :: rest => (1, rest)
    | rest => (1, rest)
  match signAndDigits.2.splitOn '.' with
  | [intPart] =>
    if intPart.isEmpty then none
    else (parseDigits intPart 0).map (fun n => ⟨signAndDigits.1 * n, 0⟩)
  | [intPart, fracPart] =>
    if intPart.isEmpty || fracPart.isEmpty then none
    else
      match parseDigits intPart 0, parseDigits fracPart 0 with
      | some n, some f =>
        some ⟨signAndDigits.1 * (n * 10 ^ fracPart.length + f), fracPart.length⟩
      | _, _ => none
  | _ => none

/-- Field-for-field model of `struct DepthDiff` from
examples/bitbank/bitbank_websocket_orderbook.rs. The `serde_json::Value` entries of `a` and `b`
are modelled as the `(price, amount)` string pairs that `ask[0].as_str().unwrap()` /
`ask[1].as_str().unwrap()` extract at every use site. -/
structure DepthDiff where
  a : List (String × String)
  b : List (String × String)
  ao : Option String
  bu : Option String
  au : Option String
  bo : Option String
  am : Option String
  bm : Option String
  t : Int
  s : String
deriving DecidableEq

/-- Field-for-field model of `struct DepthWhole` from
examples/bitbank/bitbank_websocket_orderbook.rs, with levels modelled as in `DepthDiff`. -/
structure DepthWhole where
  asks : List (String × String)
  bids : List (String × String)
  asks_over : String
  bids_under : String
  asks_under : String
  bids_over : String
  ask_market : String
  bid_market : String
  timestamp : Int
  sequenceId : String
deriving DecidableEq

/-- Field-for-field model of `struct DepthData`: the reconciliation state. -/
structure DepthData where
  diff_buffer : Smap DepthDiff
  asks : Smap Decimal
  bids : Smap Decimal
  is_complete : Bool
deriving DecidableEq

/-- Embeds `DepthData::new()`. -/
def DepthData.new : DepthData :=
  { diff_buffer := [], asks := [], bids := [], is_complete := false }

/-- The per-side loop body of `DepthData::insert_diff`: parse the amount (panic on failure),
then remove the level when the amount is zero (guarded by `contains_key`, as in the source) or
upsert it otherwise. -/
def applyDiffLevelsChecked : Smap Decimal → List (String × String) → Option (Smap Decimal)
  | book, [] => some book
  | book, (price, amountStr) :: rest =>
    match parseDecimal amountStr with
    | none => none
    | some amount =>
      applyDiffLevelsChecked
        (if Decimal.isZero amount then
          (if Smap.contains_key book price then Smap.remove book price else book)
        else Smap.insert book price amount) rest

/-- The per-side loop body of `DepthData::process_diff_buffer`: as above but the zero case
calls `remove` without the `contains_key` guard, as in the source. -/
def applyDiffLevels : Smap Decimal → List (String × String) → Option (Smap Decimal)
  | book, [] => some book
  | book, (price, amountStr) :: rest =>
    match parseDecimal amountStr with
    | none => none
    | some amount =>
      applyDiffLevels
        (if Decimal.isZero amount then Smap.remove book price
        else Smap.insert book price amount) rest

/-- Embeds `DepthData::insert_diff(&mut self, diff)`: applies the diff's ask levels and then its bid
levels directly to `self.asks` / `self.bids`. Note that, as in the source, it touches neither
`self.diff_buffer` nor `self.is_complete`, in every state. `none` models a parse panic. -/
def insert_diff (d : DepthData) (diff : DepthDiff) : Option DepthData :=
  Option.bind (applyDiffLevelsChecked d.asks diff.a) (fun asks2 =>
    Option.bind (applyDiffLevelsChecked d.bids diff.b) (fun bids2 =>
      some { d with asks := asks2, bids := bids2 }))

/-- The loop of `DepthData::process_diff_buffer` over `self.diff_buffer.values()` (ascending
key order, i.e. list order of the sorted association list). -/
def applyBufferedDiffs :
    Smap Decimal → Smap Decimal → List DepthDiff → Option (Smap Decimal × Smap Decimal)
  | asks, bids, [] => some (asks, bids)
  | asks, bids, diff :: rest =>
    match applyDiffLevels asks diff.a with
    | none => none
    | some asks2 =>
      match applyDiffLevels bids diff.b with
      | none => none
      | some bids2 => applyBufferedDiffs asks2 bids2 rest

/-- Embeds `DepthData::process_diff_buffer(&mut self)`: apply every buffered diff in ascending key
order, then clear the buffer. -/
def process_diff_buffer (d : DepthData) : Option DepthData :=
  Option.bind (applyBufferedDiffs d.asks d.bids (List.map Prod.snd d.diff_buffer))
    (fun books => some { d with asks := books.1, bids := books.2, diff_buffer := [] })

/-- The per-side loop body of `DepthData::update_whole`: parse the amount (panic on failure),
panic (`assert_ne!`) on a zero amount, insert the level. -/
def insertWholeLevels : Smap Decimal → List (String × String) → Option (Smap Decimal)
  | book, [] => some book
  | book, (price, amountStr) :: rest =>
    match parseDecimal amountStr with
    | none => none
    | some amount =>
      if Decimal.isZero amount then none
      else insertWholeLevels (Smap.insert book price amount) rest

/-- Embeds `DepthData::update_whole(&mut self, whole)`: drop every buffered diff whose key satisfies
`key < whole.sequenceId` under the `String` order, clear both books, insert the snapshot's
levels, run `process_diff_buffer`, and finally set `is_complete = true`. -/
def update_whole (d : DepthData) (whole : DepthWhole) : Option DepthData :=
  Option.bind (insertWholeLevels [] whole.asks) (fun asks2 =>
    Option.bind (insertWholeLevels [] whole.bids) (fun bids2 =>
      Option.bind (process_diff_buffer
          { d with
            diff_buffer := List.filter (fun p => ! strLt p.1 whole.sequenceId) d.diff_buffer,
            asks := asks2, bids := bids2 })
        (fun d2 => some { d2 with is_complete := true })))

/-- The reconciliation states reachable by the program: the fresh `DepthData::new()` state
evolved by the only two mutating operations the message-handler closure ever calls,
`insert_diff` (on a `depth_diff` room event) and `update_whole` (on a `depth_whole` room
event), restricted to panic-free runs. -/
inductive Reached : DepthData → Prop where
  | start : Reached DepthData.new
  | diff (d : DepthData) (x : DepthDiff) (d2 : DepthData) :
      Reached d → insert_diff d x = some d2 → Reached d2
  | whole (d : DepthData) (w : DepthWhole) (d2 : DepthData) :
      Reached d → update_whole d w = some d2 → Reached d2

/-- Model of `serde_json::Value` (integral numbers suffice for the payloads at issue). -/
inductive Json where
  | null
  | bool (b : Bool)
  | num (n : Int)
  | str (s : String)
  | arr (xs : List Json)
  | obj (fields : List (String × Json))

/-- Indexing a `serde_json::Value` with a string key (`value["success"]`): the field's value
in an object that has it, `Null` otherwise. -/
def Json.getField : Json → String → Json
  | Json.obj fields, k =>
    match List.find? (fun p => p.1 == k) fields with
    | some p => p.2
    | none => Json.null
  | _, _ => Json.null

/-- Embeds `serde_json::Value::as_i64`. -/
def Json.as_i64 : Json → Option Int
  | Json.num n => some n
  | _ => none

/-- Model of `generic_api_client::websocket::WebSocketMessage` (payloads of the non-text
variants are irrelevant: the handler asserts on all of them). -/
inductive WSMessage where
  | Text (s : String)
  | Binary
  | Ping
  | Pong

/-- Byte slicing `&message[idx..]` of the handler (applied only after the leading characters
were matched as ASCII, so character drop and byte drop agree). -/
def strDrop (s : String) (n : Nat) : String := ⟨List.drop n s.data⟩

/-- Embeds `BitbankWebSocketHandler::handle_start`: the fixed `"40"` handshake frame. -/
def handle_start : List String := ["40"]

/-- Embeds `BitbankWebSocketHandler::handle_message`, parameterized by `parseJson` (the external
`serde_json::from_str::<serde_json::Value>`) and by the configured
`options.websocket_channels`. The result is `(outbound text frames, values passed to the
`message_handler` sink)`; `none` models a panic — `message.chars().nth(0).unwrap()` on an
empty text frame, `nth(1).unwrap()` on a `"4"` frame with no inner tag, and `assert!(false)`
on `Binary` / `Ping` / `Pong` frames. -/
def handle_message (parseJson : String → Option Json) (channels : List String) :
    WSMessage → Option (List String × List Json)
  | WSMessage.Text msg =>
    match List.head? msg.data with
    | none => none
    | some c0 =>
      if c0 = '0' then
        match parseJson (strDrop msg 1) with
        | some _ => some ([], [])
        | none => some ([], [])
      else if c0 = '1' then some ([], [])
      else if c0 = '2' then some (["3"], [])
      else if c0 = '4' then
        match List.get? msg.data 1 with
        | none => none
        | some c1 =>
          if c1 = '0' then
            match parseJson (strDrop msg 2) with
            | some _ =>
              some (List.map (fun channel => "42[\"join-room\", \"" ++ channel ++ "\"]")
                channels, [])
            | none => some ([], [])
          else if c1 = '2' then
            match parseJson (strDrop msg 2) with
            | some j => some ([], [j])
            | none => some ([], [])
          else some ([], [])
      else some ([], [])
  | WSMessage.Binary => none
  | WSMessage.Ping => none
  | WSMessage.Pong => none

/-- Embeds `BitbankWebSocketHandler::handle_close(reconnect)` together with its effect on the
reconciliation state owned by the message-handler closure: the handler body only logs the
`reconnect` flag, and no code path anywhere resets the `DepthData` behind the closure, so a
close — reconnecting or not — leaves the reconciliation state exactly as it was. -/
def handle_close (reconnect : Bool) (board : DepthData) : DepthData := board

/-- A concrete stand-in for `serde_json` parsing, used by closed evaluations: accepts exactly
the empty-object payload. -/
def demoParse (s : String) : Option Json :=
  if s = "\x7b\x7d" then some (Json.obj []) else none

/-- Field-for-field model of `enum BitbankHandleError`. -/
inductive BitbankHandleError where
  | ApiError (v : Json)
  | ReuqestLimitExceeded (v : Json)
  | ParseError

/-- Discriminator for the dedicated rate-limit variant. -/
def isReuqestLimitExceeded : Except BitbankHandleError Json → Bool
  | Except.error (BitbankHandleError.ReuqestLimitExceeded _) => true
  | _ => false

/-- Embeds `BitbankRequestHandler::handle_response`, at `R = serde_json::Value` so that the generic
deserialization and the envelope re-parse coincide. `status_success` is `status.is_success()`;
`body` is the result of `serde_json::from_slice` on the response bytes (`none` = parse
failure). On a successful status, a body whose `"success"` field is the integer `0` is
returned as `ApiError` carrying the whole envelope — whatever its `"code"` field holds. -/
def handle_response (status_success : Bool) (body : Option Json) :
    Except BitbankHandleError Json :=
  if status_success then
    match body with
    | none => Except.error BitbankHandleError.ParseError
    | some resVal =>
      if Json.as_i64 (Json.getField resVal "success") = some 0 then
        Except.error (BitbankHandleError.ApiError resVal)
      else Except.ok resVal
  else
    match body with
    | some parsedError => Except.error (BitbankHandleError.ApiError parsedError)
    | none => Except.error BitbankHandleError.ParseError

/-- The `key`, `secret` and `http_auth` fields of `BitbankOptions` — the only fields
`build_request` reads. -/
structure BitbankOptions where
  key : Option String
  secret : Option String
  http_auth : Bool

/-- The path and query of the request's URL. -/
structure Url where
  path : String
  query : Option String

/-- The built request: URL, accumulated headers, and the serialized body if any. -/
structure Request where
  url : Url
  headers : List (String × String)
  body : Option String

/-- Embeds `http::HeaderValue::from_str` validity: horizontal tab or any byte from 32 up, except
delete. -/
def headerValueValid (s : String) : Bool :=
  List.all s.data (fun c => c == '\t' || (decide (32 ≤ c.toNat) && c.toNat != 127))

/-- First header with the given name (the four authentication names are inserted once). -/
def getHeader (req : Request) (name : String) : Option String :=
  Option.map Prod.snd (List.find? (fun p => p.1 == name) req.headers)

/-- Together with `hexEncode` this embeds `hex::encode`: two lowercase hex digits per byte. -/
def hexDigit (n : Nat) : Char := Char.ofNat (if n < 10 then 48 + n else 87 + n)

/-- Embeds `hex::encode` over a digest byte list. -/
def hexEncode (bytes : List Nat) : String :=
  ⟨List.foldr (fun b acc => hexDigit (b / 16 % 16) :: hexDigit (b % 16) :: acc) [] bytes⟩

/-- Embeds `BitbankRequestHandler::build_request`, parameterized by `hmacSha256` — the external
`Hmac::<Sha256>` computation, mapping `(secret, message)` to the digest bytes (its
`new_from_slice` never fails for HMAC). `request_body` is the `serde_json::to_string`
serialization of the generic body when one is present (serialization of the generic `B` is
external to this module). `now_millis` is the `SystemTime::now()` reading in milliseconds.
`Except.error` models the `Err(&'static str)` build errors. -/
def build_request (hmacSha256 : String → String → List Nat)
    (options : BitbankOptions) (url : Url) (request_body : Option String)
    (now_millis : Nat) : Except String Request :=
  let builtHeaders : List (String × String) :=
    match request_body with
    | some _ => [("content-type", "application/json")]
    | none => []
  let request : Request := { url := url, headers := builtHeaders, body := request_body }
  if options.http_auth then
    let path :=
      match url.query with
      | some q => url.path ++ "?" ++ q
      | none => url.path
    let body := Option.getD request.body ""
    let access_request_time := now_millis
    let access_time_window : Nat := 1000
    let sign_latter := if body = "" then path else body
    let sign_content :=
      toString access_request_time ++ toString access_time_window ++ sign_latter
    match options.secret with
    | none => Except.error "API secret not found"
    | some secret =>
      let signature := hexEncode (hmacSha256 secret sign_content)
      match options.key with
      | none => Except.error "API key not found"
      | some key =>
        if headerValueValid key then
          Except.ok { request with headers := request.headers ++
            [("ACCESS-KEY", key),
             ("ACCESS-REQUEST-TIME", toString access_request_time),
             ("ACCESS-TIME-WINDOW", toString access_time_window),
             ("ACCESS-SIGNATURE", signature)] }
        else Except.error "invalid character in API key"
  else Except.ok request

/-- The four authentication headers of a built request, in declaration order. -/
def authHeadersOf (req : Request) :
    Option String × Option String × Option String × Option String :=
  (getHeader req "ACCESS-KEY", getHeader req "ACCESS-REQUEST-TIME",
   getHeader req "ACCESS-TIME-WINDOW", getHeader req "ACCESS-SIGNATURE")

/-- The claimed signing target: the path with its query exactly when the request has no body,
the serialized body exactly when one is present. -/
def signTarget (url : Url) (request_body : Option String) : String :=
  match request_body with
  | some b => b
  | none =>
    match url.query with
    | some q => url.path ++ "?" ++ q
    | none => url.path

/-- C1: the claim says a diff delivered while `ready` (`is_complete`) is false is stored in
the buffer keyed by its sequence and the books stay unchanged. Evaluating `insert_diff` on the
fresh (not-ready) state shows the opposite: the diff is applied to the asks book immediately
and the buffer stays empty — `insert_diff` never writes to `diff_buffer` at all. -/
theorem diff_before_ready_applied_not_buffered :
    insert_diff DepthData.new
      { a := [("10", "1")], b := [], ao := none, bu := none, au := none, bo := none,
        am := none, bm := none, t := 0, s := "5" } =
      some { diff_buffer := [], asks := [("10", ⟨1, 0⟩)], bids := [], is_complete := false } :=
  by decide

/-- C2: the claim says a buffered diff with sequence at or above the snapshot's is applied
exactly once after the snapshot, making the final book independent of arrival order. Running
the program's own event path — a diff with sequence `"200"` delivered before a snapshot with
sequence `"100"` — shows the diff is never buffered (the intermediate buffer is empty), so the
snapshot wipes its effect: the final asks book is the bare snapshot, the `("20", 2)` level the
claim requires is absent. -/
theorem pre_snapshot_diff_is_lost :
    insert_diff DepthData.new
      { a := [("20", "2")], b := [], ao := none, bu := none, au := none, bo := none,
        am := none, bm := none, t := 0, s := "200" } =
      some { diff_buffer := [], asks := [("20", ⟨2, 0⟩)], bids := [],
             is_complete := false } ∧
    update_whole
      { diff_buffer := [], asks := [("20", ⟨2, 0⟩)], bids := [], is_complete := false }
      { asks := [("10", "1")], bids := [], asks_over := "0", bids_under := "0",
        asks_under := "0", bids_over := "0", ask_market := "0", bid_market := "0",
        timestamp := 0, sequenceId := "100" } =
      some { diff_buffer := [], asks := [("10", ⟨1, 0⟩)], bids := [],
             is_complete := true } ∧
    Smap.contains_key
      (DepthData.asks
        { diff_buffer := [], asks := [("10", ⟨1, 0⟩)], bids := [], is_complete := true })
      "20" = false :=
  by decide

/-- C3: the claim says sequence comparison is numeric, so a buffered diff with sequence
`"99"` is discarded by a snapshot with sequence `"100"`. Evaluating `update_whole` on a state
holding exactly that buffered diff (which clears the ask level `"10"`) shows the comparison is
the raw `String` order: `"99" < "100"` is false lexicographically, the diff is kept and
replayed after the snapshot, and the final asks book is empty instead of the snapshot's
`[("10", 1)]`. -/
theorem sequence_comparison_is_lexicographic :
    strLt "99" "100" = false ∧
    update_whole
      { diff_buffer :=
          [("99", { a := [("10", "0")], b := [], ao := none, bu := none, au := none,
                    bo := none, am := none, bm := none, t := 0, s := "99" })],
        asks := [], bids := [], is_complete := false }
      { asks := [("10", "1")], bids := [], asks_over := "0", bids_under := "0",
        asks_under := "0", bids_over := "0", ask_market := "0", bid_market := "0",
        timestamp := 0, sequenceId := "100" } =
      some { diff_buffer := [], asks := [], bids := [], is_complete := true } :=
  by decide

/-- C4: the claim says a reconnect-close drives the reconciliation state back to
`ready = false` with its buffer cleared. Evaluating the close path on a ready state shows it
is untouched: `handle_close` only logs, nothing resets the `DepthData`, and `is_complete`
stays `true`. -/
theorem reconnect_close_leaves_state_ready :
    handle_close true
      { diff_buffer := [], asks := [("10", ⟨1, 0⟩)], bids := [], is_complete := true } =
      { diff_buffer := [], asks := [("10", ⟨1, 0⟩)], bids := [], is_complete := true } ∧
    DepthData.is_complete
      (handle_close true
        { diff_buffer := [], asks := [("10", ⟨1, 0⟩)], bids := [], is_complete := true }) =
      true :=
  ⟨rfl, rfl⟩

/-- C5: the claim says a failure envelope carrying the reserved rate-limit code is returned
as the dedicated `ReuqestLimitExceeded` variant. Evaluating `handle_response` on a successful
status with the envelope `\x7b"success": 0, "code": 10009\x7d` (10009 is bitbank's
request-limit code) shows it is returned as the generic `ApiError`; the
`ReuqestLimitExceeded` variant is declared but never constructed anywhere in the handler. -/
theorem rate_limit_envelope_returns_generic_api_error :
    handle_response true
      (some (Json.obj [("success", Json.num 0), ("code", Json.num 10009)])) =
      Except.error (BitbankHandleError.ApiError
        (Json.obj [("success", Json.num 0), ("code", Json.num 10009)])) ∧
    isReuqestLimitExceeded
      (handle_response true
        (some (Json.obj [("success", Json.num 0), ("code", Json.num 10009)]))) = false :=
  ⟨rfl, rfl⟩

/-- C8: the claim says every malformed text frame — including an empty frame and a message
frame with no inner tag — is logged and dropped without panicking. Evaluating
`handle_message`: the empty frame and the bare `"4"` frame panic (`unwrap()` on a missing
character, modelled as `none`); only a frame whose payload merely fails JSON parsing is
dropped gracefully. -/
theorem empty_frame_panics :
    handle_message demoParse [] (WSMessage.Text "") = none ∧
    handle_message demoParse [] (WSMessage.Text "4") = none ∧
    handle_message demoParse [] (WSMessage.Text "42oops") = some ([], []) :=
  ⟨rfl, rfl, rfl⟩

/-- Helper: `insert_diff` never touches the diff buffer. -/
theorem insert_diff_preserves_buffer (d : DepthData) (x : DepthDiff) (d2 : DepthData)
    (h : insert_diff d x = some d2) : d2.diff_buffer = d.diff_buffer := by
  unfold insert_diff at h
  rw [Option.bind_eq_some] at h
  obtain ⟨asks2, _, h⟩ := h
  rw [Option.bind_eq_some] at h
  obtain ⟨bids2, _, h⟩ := h
  simp only [Option.some.injEq] at h
  rw [← h]

/-- Helper: `process_diff_buffer` always leaves the diff buffer empty. -/
theorem process_diff_buffer_clears (d d2 : DepthData)
    (h : process_diff_buffer d = some d2) : d2.diff_buffer = [] := by
  unfold process_diff_buffer at h
  rw [Option.bind_eq_some] at h
  obtain ⟨books, _, h⟩ := h
  simp only [Option.some.injEq] at h
  rw [← h]

/-- Helper: `update_whole` always leaves the diff buffer empty. -/
theorem update_whole_clears_buffer (d : DepthData) (w : DepthWhole) (d2 : DepthData)
    (h : update_whole d w = some d2) : d2.diff_buffer = [] := by
  unfold update_whole at h
  rw [Option.bind_eq_some] at h
  obtain ⟨asks2, _, h⟩ := h
  rw [Option.bind_eq_some] at h
  obtain ⟨bids2, _, h⟩ := h
  rw [Option.bind_eq_some] at h
  obtain ⟨d3, hp, h⟩ := h
  have h3 : d3.diff_buffer = [] := process_diff_buffer_clears _ _ hp
  simp only [Option.some.injEq] at h
  rw [← h]
  exact h3

/-- Helper: every reachable reconciliation state has an empty diff buffer — the program never
inserts into `diff_buffer`. -/
theorem reached_buffer_empty (d : DepthData) (h : Reached d) : d.diff_buffer = [] := by
  induction h with
  | start => rfl
  | diff d0 x d2 _ hstep ih => rw [insert_diff_preserves_buffer d0 x d2 hstep]; exact ih
  | whole d0 w d2 _ hstep _ => exact update_whole_clears_buffer d0 w d2 hstep

/-- Helper: on a state with an empty buffer, `update_whole` reduces to the bare snapshot
replacement. -/
theorem update_whole_of_empty_buffer (d : DepthData) (w : DepthWhole)
    (hb : d.diff_buffer = []) :
    update_whole d w =
      match insertWholeLevels [] w.asks, insertWholeLevels [] w.bids with
      | some asks2, some bids2 =>
        some { diff_buffer := [], asks := asks2, bids := bids2, is_complete := true }
      | some _, none => none
      | none, _ => none := by
  unfold update_whole
  rw [hb]
  cases ha : insertWholeLevels [] w.asks with
  | none => rfl
  | some asks2 =>
    cases hbids : insertWholeLevels [] w.bids with
    | none => rfl
    | some bids2 => rfl

/-- C9: applying the same snapshot twice in a row (no diffs between) yields an identical book
both times — for every state the program can actually reach, since every reachable state has
an empty diff buffer, so both applications reduce to the same wholesale replacement. -/
theorem snapshot_idempotent (d : DepthData) (hr : Reached d) (w : DepthWhole)
    (d1 : DepthData) (h1 : update_whole d w = some d1) :
    Option.map (fun x => (DepthData.asks x, DepthData.bids x)) (update_whole d1 w) =
      some (d1.asks, d1.bids) := by
  have hb : d.diff_buffer = [] := reached_buffer_empty d hr
  rw [update_whole_of_empty_buffer d w hb] at h1
  cases ha : insertWholeLevels [] w.asks with
  | none => rw [ha] at h1; exact absurd h1 (by simp)
  | some asks2 =>
    rw [ha] at h1
    cases hbids : insertWholeLevels [] w.bids with
    | none => rw [hbids] at h1; exact absurd h1 (by simp)
    | some bids2 =>
      rw [hbids] at h1
      simp only [Option.some.injEq] at h1
      have hb1 : d1.diff_buffer = [] := by rw [← h1]
      rw [update_whole_of_empty_buffer d1 w hb1, ha, hbids, ← h1]
      rfl

/-- Witness for C9: the fresh state is reachable, and a concrete snapshot applied twice
yields the same book both times. -/
theorem snapshot_idempotent_witness :
    Option.map (fun x => (DepthData.asks x, DepthData.bids x))
      (update_whole
        { diff_buffer := [], asks := [("10", ⟨1, 0⟩)], bids := [], is_complete := true }
        { asks := [("10", "1")], bids := [], asks_over := "0", bids_under := "0",
          asks_under := "0", bids_over := "0", ask_market := "0", bid_market := "0",
          timestamp := 0, sequenceId := "100" }) =
      some ([("10", ⟨1, 0⟩)], []) :=
  snapshot_idempotent DepthData.new Reached.start
    { asks := [("10", "1")], bids := [], asks_over := "0", bids_under := "0",
      asks_under := "0", bids_over := "0", ask_market := "0", bid_market := "0",
      timestamp := 0, sequenceId := "100" }
    { diff_buffer := [], asks := [("10", ⟨1, 0⟩)], bids := [], is_complete := true }
    (by decide)

/-- C7 (counterexample to the exact serialization): the claim says the join request for
channel `"depth_whole_btc_jpy"` serializes to exactly `42["join-room","depth_whole_btc_jpy"]`.
On a connect-ack the handler emits `42["join-room", "depth_whole_btc_jpy"]` — with a space
after the comma, which is a different string. -/
theorem join_request_has_space_after_comma :
    handle_message demoParse ["depth_whole_btc_jpy"] (WSMessage.Text "40\x7b\x7d") =
      some (["42[\"join-room\", \"depth_whole_btc_jpy\"]"], []) ∧
    "42[\"join-room\", \"depth_whole_btc_jpy\"]" ≠ "42[\"join-room\",\"depth_whole_btc_jpy\"]" :=
  ⟨rfl, by decide⟩

/-- C7 (amended): on each connect-ack frame whose payload parses as JSON, the handler emits
exactly one join request per configured channel, in the configured order, each serializing to
`42["join-room", "<channel>"]` — with a space after the comma. -/
theorem connect_ack_emits_one_join_per_channel (parseJson : String → Option Json)
    (channels : List String) (payload : String) (j : Json)
    (hp : parseJson payload = some j) :
    handle_message parseJson channels (WSMessage.Text ("40" ++ payload)) =
      some (List.map (fun channel => "42[\"join-room\", \"" ++ channel ++ "\"]") channels,
        []) := by
  obtain ⟨data⟩ := payload
  have hmsg : ("40" ++ (⟨data⟩ : String)) = ⟨'4' :: '0' :: data⟩ := rfl
  rw [hmsg]
  simp [handle_message, strDrop, hp]

/-- Witness for the amended C7 at a concrete parser, channel list and payload. -/
theorem connect_ack_emits_one_join_per_channel_witness :
    handle_message demoParse ["depth_diff_btc_jpy", "depth_whole_btc_jpy"]
      (WSMessage.Text ("40" ++ "\x7b\x7d")) =
      some (["42[\"join-room\", \"depth_diff_btc_jpy\"]",
             "42[\"join-room\", \"depth_whole_btc_jpy\"]"], []) :=
  connect_ack_emits_one_join_per_channel demoParse
    ["depth_diff_btc_jpy", "depth_whole_btc_jpy"] "\x7b\x7d" (Json.obj []) rfl

/-- C6: on an authenticated request (`http_auth` set), with key and secret configured,
`build_request` succeeds and sets the four authentication headers to the key, the
millisecond timestamp, the window, and `hex(HMAC-SHA256(secret, timestamp ++ window ++ X))`,
where `X` is the path-with-query exactly when the request has no body and the serialized body
exactly when one is present (never both — `serde_json::to_string` output is never the empty
string, hypothesis `hbody`); with the key or the secret missing, `build_request` returns an
error and no request is produced. -/
theorem build_request_signs_and_sets_headers (hmacSha256 : String → String → List Nat)
    (options : BitbankOptions) (url : Url) (request_body : Option String)
    (now_millis : Nat) (hauth : options.http_auth = true)
    (hbody : ∀ b, request_body = some b → b ≠ "") :
    (∀ k s, options.key = some k → options.secret = some s → headerValueValid k = true →
      Except.map authHeadersOf
          (build_request hmacSha256 options url request_body now_millis) =
        Except.ok (some k, some (toString now_millis), some "1000",
          some (hexEncode (hmacSha256 s
            (toString now_millis ++ "1000" ++ signTarget url request_body))))) ∧
    (options.key = none ∨ options.secret = none →
      Except.isOk (build_request hmacSha256 options url request_body now_millis) = false) := by
  constructor
  · intro k s hk hs hvalid
    cases request_body with
    | none =>
      simp only [build_request, hauth, hs, hk, hvalid, if_true]
      rfl
    | some b =>
      have hne : ¬ (b = "") := hbody b rfl
      simp only [build_request, hauth, hs, hk, hvalid, hne, if_true, if_false, ite_false]
      simp only [Option.getD_some, if_neg hne]
      rfl
  · intro hmiss
    cases hsec : options.secret with
    | none =>
      simp only [build_request, hauth, hsec]
      rfl
    | some s =>
      cases hmiss with
      | inr hr => rw [hsec] at hr; exact absurd hr (by simp)
      | inl hkey =>
        simp only [build_request, hauth, hsec, hkey]
        rfl

/-- Witness for C6 at a concrete HMAC function, credentials, URL and timestamp. -/
theorem build_request_signs_and_sets_headers_witness :
    Except.map authHeadersOf
        (build_request (fun _ _ => [0, 255])
          { key := some "mykey", secret := some "mysecret", http_auth := true }
          { path := "/v1/user/assets", query := some "asset=jpy" } none 123) =
      Except.ok (some "mykey", some "123", some "1000", some "00ff") :=
  (build_request_signs_and_sets_headers (fun _ _ => [0, 255])
      { key := some "mykey", secret := some "mysecret", http_auth := true }
      { path := "/v1/user/assets", query := some "asset=jpy" } none 123
      rfl (fun b h => nomatch h)).1 "mykey" "mysecret" rfl rfl (by decide)

/-- C10: every request built with authentication carries the fixed window constant `1000`
both as the `ACCESS-TIME-WINDOW` header and as the window component of the signing string —
for every options value whatsoever, so no configuration can change it. -/
theorem time_window_is_constant_1000 (hmacSha256 : String → String → List Nat)
    (options : BitbankOptions) (url : Url) (request_body : Option String)
    (now_millis : Nat) (req : Request)
    (hauth : options.http_auth = true)
    (hok : build_request hmacSha256 options url request_body now_millis = Except.ok req) :
    getHeader req "ACCESS-TIME-WINDOW" = some "1000" ∧
    getHeader req "ACCESS-SIGNATURE" =
      some (hexEncode (hmacSha256 (Option.getD options.secret "")
        (toString now_millis ++ "1000" ++
          (if Option.getD request_body "" = "" then
            (match url.query with
             | some q => url.path ++ "?" ++ q
             | none => url.path)
          else Option.getD request_body "")))) := by
  cases hsec : options.secret with
  | none =>
    simp only [build_request, hauth, hsec] at hok
    exact absurd hok (by simp)
  | some s =>
    cases hkey : options.key with
    | none =>
      simp only [build_request, hauth, hsec, hkey] at hok
      exact absurd hok (by simp)
    | some k =>
      cases hvalid : headerValueValid k with
      | false =>
        simp only [build_request, hauth, hsec, hkey, hvalid] at hok
        exact absurd hok (by simp)
      | true =>
        simp only [build_request, hauth, hsec, hkey, hvalid, if_true] at hok
        simp only [Except.ok.injEq] at hok
        rw [← hok]
        cases request_body with
        | none => exact ⟨rfl, rfl⟩
        | some b => exact ⟨rfl, rfl⟩

/-- Witness for C10 at a concrete HMAC function, options, URL and timestamp. -/
theorem time_window_is_constant_1000_witness :
    getHeader
        { url := { path := "/v1/user/assets", query := none },
          headers := [("ACCESS-KEY", "k"), ("ACCESS-REQUEST-TIME", "1700000000000"),
            ("ACCESS-TIME-WINDOW", "1000"), ("ACCESS-SIGNATURE", "abcd")],
          body := none } "ACCESS-TIME-WINDOW" = some "1000" ∧
    getHeader
        { url := { path := "/v1/user/assets", query := none },
          headers := [("ACCESS-KEY", "k"), ("ACCESS-REQUEST-TIME", "1700000000000"),
            ("ACCESS-TIME-WINDOW", "1000"), ("ACCESS-SIGNATURE", "abcd")],
          body := none } "ACCESS-SIGNATURE" = some "abcd" :=
  time_window_is_constant_1000 (fun _ _ => [171, 205])
    { key := some "k", secret := some "s", http_auth := true }
    { path := "/v1/user/assets", query := none } none 1700000000000
    { url := { path := "/v1/user/assets", query := none },
      headers := [("ACCESS-KEY", "k"), ("ACCESS-REQUEST-TIME", "1700000000000"),
        ("ACCESS-TIME-WINDOW", "1000"), ("ACCESS-SIGNATURE", "abcd")],
      body := none }
    rfl rfl

end CryptoBotters
